import Mathlib

/-!
Shallow embedding of the coffee-maker control logic
(src/api.py and src/main.py of mhusbyn/python-coffee-maker).

Hardware status constants come from `CoffeeMakerApi` in src/api.py.
The hardware environment (sensor values, latched brew button) and the
commanded actuator states are collected in a `State`, together with a
trace of every hardware read and write, so that ordering and frame
properties of the control code can be stated.  Each Python method
becomes a Lean function on `State` (reads return their value alongside
the updated state, mirroring the side-effecting property reads).
-/

set_option maxRecDepth 8000

namespace CoffeeMaker

/-! ### Constants from `CoffeeMakerApi` (src/api.py) -/

def WARMER_EMPTY : Nat := 0
def POT_EMPTY : Nat := 1
def POT_NOT_EMPTY : Nat := 2

def BOILER_EMPTY : Nat := 0
def BOILER_NOT_EMPTY : Nat := 1

def BREW_BUTTON_PUSHED : Nat := 0
def BREW_BUTTON_NOT_PUSHED : Nat := 1

def BOILER_ON : Nat := 0
def BOILER_OFF : Nat := 1

def WARMER_ON : Nat := 0
def WARMER_OFF : Nat := 1

def INDICATOR_ON : Nat := 0
def INDICATOR_OFF : Nat := 1

def VALVE_OPEN : Nat := 0
def VALVE_CLOSED : Nat := 1

/-! ### Hardware events (reads and writes crossing the api boundary) -/

inductive Event where
  | readWarmerPlate (v : Nat)
  | readBoiler (v : Nat)
  | readButton (v : Nat)
  | setBoilerState (v : Nat)
  | setWarmerState (v : Nat)
  | setIndicatorState (v : Nat)
  | setReliefValveState (v : Nat)
deriving DecidableEq, Repr

def Event.isWrite : Event → Bool
  | .setBoilerState _ => true
  | .setWarmerState _ => true
  | .setIndicatorState _ => true
  | .setReliefValveState _ => true
  | _ => false

/-- The write events of a trace, in order. -/
def writesOf (t : List Event) : List Event := t.filter Event.isWrite

/-- Sensor side of the hardware: current sensor readings.  The brew
button is the latched value the next read will return. -/
structure Env where
  warmer_plate : Nat
  boiler : Nat
  brew_button : Nat
deriving DecidableEq, Repr

/-- Whole system state: hardware environment, last commanded actuator
states, the boiler controller's `_is_on` flag, and the event trace. -/
structure State where
  env : Env
  boilerCmd : Nat
  warmerCmd : Nat
  indicatorCmd : Nat
  valveCmd : Nat
  boiler_is_on : Bool
  trace : List Event
deriving DecidableEq, Repr

/-! ### `CoffeeMakerApi` operations (src/api.py)

Reads return the value and the updated state.  `brew_button_status`
returns the remembered state and resets the latch to
`BREW_BUTTON_NOT_PUSHED`, as its docstring requires. -/

def warmer_plate_status (s : State) : Nat × State :=
  (s.env.warmer_plate,
    { s with trace := s.trace ++ [Event.readWarmerPlate s.env.warmer_plate] })

def boiler_status (s : State) : Nat × State :=
  (s.env.boiler,
    { s with trace := s.trace ++ [Event.readBoiler s.env.boiler] })

def brew_button_status (s : State) : Nat × State :=
  (s.env.brew_button,
    { s with
        env := { s.env with brew_button := BREW_BUTTON_NOT_PUSHED },
        trace := s.trace ++ [Event.readButton s.env.brew_button] })

def set_boiler_state (v : Nat) (s : State) : State :=
  { s with boilerCmd := v, trace := s.trace ++ [Event.setBoilerState v] }

def set_warmer_state (v : Nat) (s : State) : State :=
  { s with warmerCmd := v, trace := s.trace ++ [Event.setWarmerState v] }

def set_indicator_state (v : Nat) (s : State) : State :=
  { s with indicatorCmd := v, trace := s.trace ++ [Event.setIndicatorState v] }

def set_relief_valve_state (v : Nat) (s : State) : State :=
  { s with valveCmd := v, trace := s.trace ++ [Event.setReliefValveState v] }

/-! ### Sensors (publishers' `_get_status` and derived queries, src/main.py) -/

def WarmerPlateSensor.get_status (s : State) : Nat × State := warmer_plate_status s

/-- `WarmerPlateSensor.pot_present`: re-reads the sensor; true iff the
status differs from `WARMER_EMPTY`. -/
def WarmerPlateSensor.pot_present (s : State) : Bool × State :=
  let r := WarmerPlateSensor.get_status s
  (r.1 != WARMER_EMPTY, r.2)

def BoilerSensor.get_status (s : State) : Nat × State := boiler_status s

/-- `BoilerSensor.is_empty`: re-reads the sensor; true iff the status
equals `BOILER_EMPTY`. -/
def BoilerSensor.is_empty (s : State) : Bool × State :=
  let r := BoilerSensor.get_status s
  (r.1 == BOILER_EMPTY, r.2)

def ButtonSensor.get_status (s : State) : Nat × State := brew_button_status s

/-! ### Actuator controllers (src/main.py) -/

def WarmerPlate.turn_on (s : State) : State := set_warmer_state WARMER_ON s

def WarmerPlate.turn_off (s : State) : State := set_warmer_state WARMER_OFF s

/-- `WarmerPlate.on_observe_warmer_plate`: on iff the status equals
`POT_NOT_EMPTY`, off otherwise. -/
def WarmerPlate.on_observe_warmer_plate (new_status : Nat) (s : State) : State :=
  if new_status = POT_NOT_EMPTY then WarmerPlate.turn_on s else WarmerPlate.turn_off s

def Valve.open' (s : State) : State := set_relief_valve_state VALVE_OPEN s

def Valve.close (s : State) : State := set_relief_valve_state VALVE_CLOSED s

/-- `Boiler.turn_on`'s guard `not is_empty and pot_present`: Python
`and` short-circuits, so `pot_present` is read only when the boiler
read reported not-empty. -/
def Boiler.can_turn_on (s : State) : Bool × State :=
  let e := BoilerSensor.is_empty s
  if e.1 then (false, e.2)
  else WarmerPlateSensor.pot_present e.2

def Boiler.turn_on (s : State) : State :=
  let r := Boiler.can_turn_on s
  if r.1 then
    let s2 := Valve.close r.2
    let s3 := set_boiler_state BOILER_ON s2
    { s3 with boiler_is_on := true }
  else r.2

def Boiler.turn_off (s : State) : State :=
  let s1 := set_boiler_state BOILER_OFF s
  { s1 with boiler_is_on := false }

def IndicatorLight.turn_on (s : State) : State := set_indicator_state INDICATOR_ON s

def IndicatorLight.turn_off (s : State) : State := set_indicator_state INDICATOR_OFF s

/-- `IndicatorLight.on_warmer_plate_status`: on iff the status equals
`POT_NOT_EMPTY`, off otherwise. -/
def IndicatorLight.on_warmer_plate_status (status : Nat) (s : State) : State :=
  if status = POT_NOT_EMPTY then IndicatorLight.turn_on s else IndicatorLight.turn_off s

/-! ### Observers (the five `IObserver` instances of src/main.py) -/

inductive Observer where
  | warmerPlateStatusValveObserver
  | boilerSensorObserver
  | boilerButtonStatusObserver
  | warmerPlateObserver
  | indicatorLightWarmerPlateObserver
deriving DecidableEq, Repr

def Observer.on_observe : Observer → Nat → State → State
  | .warmerPlateStatusValveObserver, new_status, s =>
      if new_status = WARMER_EMPTY then Valve.open' s else Valve.close s
  | .boilerSensorObserver, new_status, s =>
      if new_status = BOILER_EMPTY then Boiler.turn_off s else s
  | .boilerButtonStatusObserver, new_status, s =>
      if new_status = BREW_BUTTON_PUSHED then Boiler.turn_on s else s
  | .warmerPlateObserver, new_status, s =>
      WarmerPlate.on_observe_warmer_plate new_status s
  | .indicatorLightWarmerPlateObserver, new_status, s =>
      IndicatorLight.on_warmer_plate_status new_status s

/-! ### Publishers (`IStatusPublisher`, src/main.py) -/

inductive Sensor where
  | warmerPlateSensor
  | boilerSensor
  | buttonSensor
deriving DecidableEq, Repr

def Sensor.get_status : Sensor → State → Nat × State
  | .warmerPlateSensor, s => WarmerPlateSensor.get_status s
  | .boilerSensor, s => BoilerSensor.get_status s
  | .buttonSensor, s => ButtonSensor.get_status s

/-- The read event a sensor's `_get_status` appends to the trace. -/
def Sensor.readEvent : Sensor → Nat → Event
  | .warmerPlateSensor, v => Event.readWarmerPlate v
  | .boilerSensor, v => Event.readBoiler v
  | .buttonSensor, v => Event.readButton v

/-- A publisher: the sensor it wraps plus its bound observers, in
registration order. -/
structure StatusPublisher where
  sensor : Sensor
  observers : List Observer
deriving DecidableEq, Repr

/-- `IStatusPublisher.check_status`: read the sensor once, then notify
every bound observer in order with the just-read value. -/
def check_status (p : StatusPublisher) (s : State) : State :=
  let r := p.sensor.get_status s
  p.observers.foldl (fun acc o => o.on_observe r.1 acc) r.2

/-- One-by-one notification in registration order, skipping no
observer: the reference form of the dispatch loop. -/
def notifyAll : List Observer → Nat → State → State
  | [], _, s => s
  | o :: rest, v, s => notifyAll rest v (o.on_observe v s)

/-! ### Wiring (`set_up_and_run`, src/main.py) -/

def warmer_plate_sensor : StatusPublisher :=
  { sensor := .warmerPlateSensor,
    observers := [.warmerPlateStatusValveObserver, .warmerPlateObserver,
                  .indicatorLightWarmerPlateObserver] }

def boiler_sensor : StatusPublisher :=
  { sensor := .boilerSensor, observers := [.boilerSensorObserver] }

def button_sensor : StatusPublisher :=
  { sensor := .buttonSensor, observers := [.boilerButtonStatusObserver] }

def wired_publishers : List StatusPublisher :=
  [warmer_plate_sensor, boiler_sensor, button_sensor]

/-- One iteration of `run_event_loop`: check every publisher in list
order. -/
def run_iteration (s : State) : State :=
  wired_publishers.foldl (fun acc p => check_status p acc) s

/-- The observable machine state apart from the ghost trace: sensor
environment, the four commanded actuator states and the boiler flag. -/
def State.core (s : State) : Env × Nat × Nat × Nat × Nat × Bool :=
  (s.env, s.boilerCmd, s.warmerCmd, s.indicatorCmd, s.valveCmd, s.boiler_is_on)

/-- A concrete state used to instantiate theorems: given sensor values,
all actuators start off/open, flag off, empty trace. -/
def testState (w b bb : Nat) : State :=
  { env := { warmer_plate := w, boiler := b, brew_button := bb },
    boilerCmd := BOILER_OFF, warmerCmd := WARMER_OFF,
    indicatorCmd := INDICATOR_OFF, valveCmd := VALVE_OPEN,
    boiler_is_on := false, trace := [] }

/-! ### Helper lemmas -/

theorem writesOf_append (t u : List Event) :
    writesOf (t ++ u) = writesOf t ++ writesOf u :=
  List.filter_append ..

theorem foldl_on_observe_eq_notifyAll (l : List Observer) (v : Nat) (s : State) :
    l.foldl (fun acc o => o.on_observe v acc) s = notifyAll l v s := by
  induction l generalizing s with
  | nil => rfl
  | cons o rest ih => simp [notifyAll, List.foldl, ih]

/-- A warmer-plate poll in full: one read, then the valve, warmer and
indicator observers fire in registration order. -/
theorem check_warmer_eq (s : State) :
    check_status warmer_plate_sensor s =
      { s with
          valveCmd := if s.env.warmer_plate = WARMER_EMPTY then VALVE_OPEN else VALVE_CLOSED
          warmerCmd := if s.env.warmer_plate = POT_NOT_EMPTY then WARMER_ON else WARMER_OFF
          indicatorCmd :=
            if s.env.warmer_plate = POT_NOT_EMPTY then INDICATOR_ON else INDICATOR_OFF
          trace := s.trace ++
            [Event.readWarmerPlate s.env.warmer_plate,
             Event.setReliefValveState
               (if s.env.warmer_plate = WARMER_EMPTY then VALVE_OPEN else VALVE_CLOSED),
             Event.setWarmerState
               (if s.env.warmer_plate = POT_NOT_EMPTY then WARMER_ON else WARMER_OFF),
             Event.setIndicatorState
               (if s.env.warmer_plate = POT_NOT_EMPTY then INDICATOR_ON else INDICATOR_OFF)] } := by
  simp only [check_status, warmer_plate_sensor, Sensor.get_status,
    WarmerPlateSensor.get_status, warmer_plate_status, List.foldl,
    Observer.on_observe, WarmerPlate.on_observe_warmer_plate,
    WarmerPlate.turn_on, WarmerPlate.turn_off, set_warmer_state,
    IndicatorLight.on_warmer_plate_status, IndicatorLight.turn_on,
    IndicatorLight.turn_off, set_indicator_state, Valve.open', Valve.close,
    set_relief_valve_state]
  split_ifs <;> simp_all [List.append_assoc]

/-- A boiler poll in full: one read, then the boiler observer, which
turns the boiler off exactly on `BOILER_EMPTY`. -/
theorem check_boiler_eq (s : State) :
    check_status boiler_sensor s =
      if s.env.boiler = BOILER_EMPTY then
        { s with
            boilerCmd := BOILER_OFF
            boiler_is_on := false
            trace := s.trace ++ [Event.readBoiler s.env.boiler,
              Event.setBoilerState BOILER_OFF] }
      else { s with trace := s.trace ++ [Event.readBoiler s.env.boiler] } := by
  simp only [check_status, boiler_sensor, Sensor.get_status, BoilerSensor.get_status,
    boiler_status, List.foldl, Observer.on_observe, Boiler.turn_off, set_boiler_state]
  split_ifs <;> simp_all [List.append_assoc]

/-- A button poll in full: one latched read (reset to not-pushed), then
the button observer, which calls `Boiler.turn_on` exactly on
`BREW_BUTTON_PUSHED`. -/
theorem check_button_eq (s : State) :
    check_status button_sensor s =
      (if s.env.brew_button = BREW_BUTTON_PUSHED then
        Boiler.turn_on
          { s with
              env := { s.env with brew_button := BREW_BUTTON_NOT_PUSHED }
              trace := s.trace ++ [Event.readButton s.env.brew_button] }
      else
        { s with
            env := { s.env with brew_button := BREW_BUTTON_NOT_PUSHED }
            trace := s.trace ++ [Event.readButton s.env.brew_button] }) := by
  simp only [check_status, button_sensor, Sensor.get_status, ButtonSensor.get_status,
    brew_button_status, List.foldl, Observer.on_observe]

/-- The successful branch of `Boiler.turn_on` as one state equation. -/
theorem Boiler_turn_on_success_state (s : State)
    (hb : s.env.boiler ≠ BOILER_EMPTY) (hw : s.env.warmer_plate ≠ WARMER_EMPTY) :
    Boiler.turn_on s =
      { s with
          valveCmd := VALVE_CLOSED
          boilerCmd := BOILER_ON
          boiler_is_on := true
          trace := s.trace ++ [Event.readBoiler s.env.boiler,
            Event.readWarmerPlate s.env.warmer_plate,
            Event.setReliefValveState VALVE_CLOSED, Event.setBoilerState BOILER_ON] } := by
  simp [Boiler.turn_on, Boiler.can_turn_on, BoilerSensor.is_empty, BoilerSensor.get_status,
    boiler_status, WarmerPlateSensor.pot_present, WarmerPlateSensor.get_status,
    warmer_plate_status, Valve.close, set_relief_valve_state, set_boiler_state, hb, hw]

/-! ### Claim theorems -/

/-- C1: `Boiler.turn_on` has an effect — closes the valve, issues the
boiler-on write, sets `is_on` — iff at call time the boiler sensor
reports not-empty and the warmer-plate sensor reports pot-present;
otherwise it performs no hardware write and leaves `is_on` (and all
commanded states) unchanged. -/
theorem Boiler_turn_on_effect_iff (s : State) :
    (s.env.boiler ≠ BOILER_EMPTY ∧ s.env.warmer_plate ≠ WARMER_EMPTY →
      (Boiler.turn_on s).valveCmd = VALVE_CLOSED ∧
      (Boiler.turn_on s).boilerCmd = BOILER_ON ∧
      (Boiler.turn_on s).boiler_is_on = true ∧
      writesOf (Boiler.turn_on s).trace =
        writesOf s.trace ++
          [Event.setReliefValveState VALVE_CLOSED, Event.setBoilerState BOILER_ON]) ∧
    (¬ (s.env.boiler ≠ BOILER_EMPTY ∧ s.env.warmer_plate ≠ WARMER_EMPTY) →
      writesOf (Boiler.turn_on s).trace = writesOf s.trace ∧
      (Boiler.turn_on s).boiler_is_on = s.boiler_is_on ∧
      (Boiler.turn_on s).valveCmd = s.valveCmd ∧
      (Boiler.turn_on s).boilerCmd = s.boilerCmd ∧
      (Boiler.turn_on s).warmerCmd = s.warmerCmd ∧
      (Boiler.turn_on s).indicatorCmd = s.indicatorCmd) := by
  constructor
  · rintro ⟨hb, hw⟩
    simp [Boiler.turn_on, Boiler.can_turn_on, BoilerSensor.is_empty,
      BoilerSensor.get_status, boiler_status, WarmerPlateSensor.pot_present,
      WarmerPlateSensor.get_status, warmer_plate_status, Valve.close,
      set_relief_valve_state, set_boiler_state, hb, hw,
      writesOf_append, writesOf, List.filter, Event.isWrite]
  · intro h
    by_cases hb : s.env.boiler = BOILER_EMPTY
    · simp [Boiler.turn_on, Boiler.can_turn_on, BoilerSensor.is_empty,
        BoilerSensor.get_status, boiler_status, hb,
        writesOf_append, writesOf, List.filter, Event.isWrite]
    · have hw : s.env.warmer_plate = WARMER_EMPTY := by
        by_contra hw
        exact h ⟨hb, hw⟩
      simp [Boiler.turn_on, Boiler.can_turn_on, BoilerSensor.is_empty,
        BoilerSensor.get_status, boiler_status, WarmerPlateSensor.pot_present,
        WarmerPlateSensor.get_status, warmer_plate_status, hb, hw,
        writesOf_append, writesOf, List.filter, Event.isWrite]

/-- C1 witness: at boiler not-empty and warmer-plate pot-present the
call succeeds. -/
theorem Boiler_turn_on_effect_iff_witness :
    (Boiler.turn_on (testState POT_EMPTY BOILER_NOT_EMPTY BREW_BUTTON_NOT_PUSHED)).valveCmd
        = VALVE_CLOSED ∧
    (Boiler.turn_on (testState POT_EMPTY BOILER_NOT_EMPTY BREW_BUTTON_NOT_PUSHED)).boilerCmd
        = BOILER_ON ∧
    (Boiler.turn_on (testState POT_EMPTY BOILER_NOT_EMPTY BREW_BUTTON_NOT_PUSHED)).boiler_is_on
        = true ∧
    writesOf (Boiler.turn_on (testState POT_EMPTY BOILER_NOT_EMPTY BREW_BUTTON_NOT_PUSHED)).trace =
      writesOf (testState POT_EMPTY BOILER_NOT_EMPTY BREW_BUTTON_NOT_PUSHED).trace ++
        [Event.setReliefValveState VALVE_CLOSED, Event.setBoilerState BOILER_ON] :=
  (Boiler_turn_on_effect_iff (testState POT_EMPTY BOILER_NOT_EMPTY BREW_BUTTON_NOT_PUSHED)).1
    (by decide)

/-- C5: on the successful branch of `Boiler.turn_on`, the relief-valve
close write strictly precedes the boiler-on write: the full trace
appends the two sensor reads and then exactly
`set_relief_valve_state(closed)` followed by `set_boiler_state(on)`. -/
theorem Boiler_turn_on_valve_closed_before_boiler_on (s : State)
    (hb : s.env.boiler ≠ BOILER_EMPTY) (hw : s.env.warmer_plate ≠ WARMER_EMPTY) :
    (Boiler.turn_on s).trace =
      s.trace ++
        [Event.readBoiler s.env.boiler, Event.readWarmerPlate s.env.warmer_plate,
         Event.setReliefValveState VALVE_CLOSED, Event.setBoilerState BOILER_ON] := by
  simp [Boiler.turn_on, Boiler.can_turn_on, BoilerSensor.is_empty,
    BoilerSensor.get_status, boiler_status, WarmerPlateSensor.pot_present,
    WarmerPlateSensor.get_status, warmer_plate_status, Valve.close,
    set_relief_valve_state, set_boiler_state, hb, hw]

/-- C5 witness: concrete successful call, trace ends valve-close then
boiler-on. -/
theorem Boiler_turn_on_valve_closed_before_boiler_on_witness :
    (Boiler.turn_on (testState POT_NOT_EMPTY BOILER_NOT_EMPTY BREW_BUTTON_NOT_PUSHED)).trace =
      (testState POT_NOT_EMPTY BOILER_NOT_EMPTY BREW_BUTTON_NOT_PUSHED).trace ++
        [Event.readBoiler BOILER_NOT_EMPTY, Event.readWarmerPlate POT_NOT_EMPTY,
         Event.setReliefValveState VALVE_CLOSED, Event.setBoilerState BOILER_ON] :=
  Boiler_turn_on_valve_closed_before_boiler_on
    (testState POT_NOT_EMPTY BOILER_NOT_EMPTY BREW_BUTTON_NOT_PUSHED)
    (by decide) (by decide)

/-- C6: `Boiler.turn_off` unconditionally issues the boiler-off write
and clears `is_on`, for every prior state; a second call leaves the
same observable machine state as one call (idempotent). -/
theorem Boiler_turn_off_unconditional_idempotent (s : State) :
    (Boiler.turn_off s).boilerCmd = BOILER_OFF ∧
    (Boiler.turn_off s).boiler_is_on = false ∧
    (Boiler.turn_off s).trace = s.trace ++ [Event.setBoilerState BOILER_OFF] ∧
    (Boiler.turn_off (Boiler.turn_off s)).core = (Boiler.turn_off s).core := by
  simp [Boiler.turn_off, set_boiler_state, State.core]

/-- C10: every call to `Boiler.turn_on` reads the boiler sensor; the
warmer-plate sensor is read exactly when the boiler read reported
not-empty (the guard short-circuits); on the no-op branch no write is
performed and the state is unchanged apart from the read events. -/
theorem Boiler_turn_on_read_pattern (s : State) :
    (s.env.boiler = BOILER_EMPTY →
      Boiler.turn_on s = { s with trace := s.trace ++ [Event.readBoiler s.env.boiler] }) ∧
    (s.env.boiler ≠ BOILER_EMPTY → s.env.warmer_plate = WARMER_EMPTY →
      Boiler.turn_on s =
        { s with trace := s.trace ++
            [Event.readBoiler s.env.boiler, Event.readWarmerPlate s.env.warmer_plate] }) ∧
    (¬ (s.env.boiler ≠ BOILER_EMPTY ∧ s.env.warmer_plate ≠ WARMER_EMPTY) →
      writesOf (Boiler.turn_on s).trace = writesOf s.trace) := by
  refine ⟨fun hb => ?_, fun hb hw => ?_, fun h => ?_⟩
  · simp [Boiler.turn_on, Boiler.can_turn_on, BoilerSensor.is_empty,
      BoilerSensor.get_status, boiler_status, hb]
  · simp [Boiler.turn_on, Boiler.can_turn_on, BoilerSensor.is_empty,
      BoilerSensor.get_status, boiler_status, WarmerPlateSensor.pot_present,
      WarmerPlateSensor.get_status, warmer_plate_status, hb, hw]
  · by_cases hb : s.env.boiler = BOILER_EMPTY
    · simp [Boiler.turn_on, Boiler.can_turn_on, BoilerSensor.is_empty,
        BoilerSensor.get_status, boiler_status, hb,
        writesOf_append, writesOf, List.filter, Event.isWrite]
    · have hw : s.env.warmer_plate = WARMER_EMPTY := by
        by_contra hw
        exact h ⟨hb, hw⟩
      simp [Boiler.turn_on, Boiler.can_turn_on, BoilerSensor.is_empty,
        BoilerSensor.get_status, boiler_status, WarmerPlateSensor.pot_present,
        WarmerPlateSensor.get_status, warmer_plate_status, hb, hw,
        writesOf_append, writesOf, List.filter, Event.isWrite]

/-- C10 witness: both no-op branches at concrete states — boiler empty
(one read) and boiler not-empty with warmer empty (two reads). -/
theorem Boiler_turn_on_read_pattern_witness :
    Boiler.turn_on (testState POT_NOT_EMPTY BOILER_EMPTY BREW_BUTTON_NOT_PUSHED) =
      { testState POT_NOT_EMPTY BOILER_EMPTY BREW_BUTTON_NOT_PUSHED with
          trace := [Event.readBoiler BOILER_EMPTY] } ∧
    Boiler.turn_on (testState WARMER_EMPTY BOILER_NOT_EMPTY BREW_BUTTON_NOT_PUSHED) =
      { testState WARMER_EMPTY BOILER_NOT_EMPTY BREW_BUTTON_NOT_PUSHED with
          trace := [Event.readBoiler BOILER_NOT_EMPTY, Event.readWarmerPlate WARMER_EMPTY] } :=
  ⟨(Boiler_turn_on_read_pattern
      (testState POT_NOT_EMPTY BOILER_EMPTY BREW_BUTTON_NOT_PUSHED)).1 (by decide),
   (Boiler_turn_on_read_pattern
      (testState WARMER_EMPTY BOILER_NOT_EMPTY BREW_BUTTON_NOT_PUSHED)).2.1
      (by decide) (by decide)⟩

/-- C2 counterexample: at status `POT_EMPTY` — which differs from
`WARMER_EMPTY`, so the spec's `pot_present` holds — the warmer-plate
observer commands the warmer OFF, not ON. -/
theorem WarmerPlate_observer_pot_empty_counterexample :
    POT_EMPTY ≠ WARMER_EMPTY ∧
    (WarmerPlate.on_observe_warmer_plate POT_EMPTY
        (testState POT_EMPTY BOILER_NOT_EMPTY BREW_BUTTON_NOT_PUSHED)).warmerCmd
      = WARMER_OFF ∧
    (WarmerPlate.on_observe_warmer_plate POT_EMPTY
        (testState POT_EMPTY BOILER_NOT_EMPTY BREW_BUTTON_NOT_PUSHED)).warmerCmd
      ≠ WARMER_ON := by
  decide

/-- C2 amended: the warmer-plate observer turns the warmer on exactly
when the just-read status equals `POT_NOT_EMPTY` (pot present with
coffee), and turns it off for every other status value, issuing exactly
one warmer write either way. -/
theorem WarmerPlate_observer_on_iff_pot_not_empty (v : Nat) (s : State) :
    (WarmerPlate.on_observe_warmer_plate v s).warmerCmd
      = (if v = POT_NOT_EMPTY then WARMER_ON else WARMER_OFF) ∧
    (WarmerPlate.on_observe_warmer_plate v s).trace
      = s.trace ++
          [Event.setWarmerState (if v = POT_NOT_EMPTY then WARMER_ON else WARMER_OFF)] := by
  by_cases h : v = POT_NOT_EMPTY <;>
    simp [WarmerPlate.on_observe_warmer_plate, WarmerPlate.turn_on,
      WarmerPlate.turn_off, set_warmer_state, h]

/-- C3 counterexample: a warmer-plate poll at status `POT_EMPTY` —
which differs from `WARMER_EMPTY`, so the spec's pot-present holds —
leaves the indicator light commanded OFF, not ON. -/
theorem IndicatorLight_poll_pot_empty_counterexample :
    POT_EMPTY ≠ WARMER_EMPTY ∧
    (check_status warmer_plate_sensor
        (testState POT_EMPTY BOILER_NOT_EMPTY BREW_BUTTON_NOT_PUSHED)).indicatorCmd
      = INDICATOR_OFF ∧
    (check_status warmer_plate_sensor
        (testState POT_EMPTY BOILER_NOT_EMPTY BREW_BUTTON_NOT_PUSHED)).indicatorCmd
      ≠ INDICATOR_ON := by
  decide

/-- C3 amended: after every poll of the warmer-plate publisher, the
indicator light is commanded on iff the just-read status equals
`POT_NOT_EMPTY`, and commanded off for every other status value. -/
theorem IndicatorLight_on_iff_pot_not_empty (s : State) :
    ((check_status warmer_plate_sensor s).indicatorCmd = INDICATOR_ON
      ↔ s.env.warmer_plate = POT_NOT_EMPTY) ∧
    (s.env.warmer_plate ≠ POT_NOT_EMPTY →
      (check_status warmer_plate_sensor s).indicatorCmd = INDICATOR_OFF) := by
  rw [check_warmer_eq]
  by_cases h : s.env.warmer_plate = POT_NOT_EMPTY <;>
    simp [h, INDICATOR_ON, INDICATOR_OFF]

/-- C3 witness: at status `WARMER_EMPTY` (≠ `POT_NOT_EMPTY`) the poll
commands the indicator off. -/
theorem IndicatorLight_on_iff_pot_not_empty_witness :
    (check_status warmer_plate_sensor
        (testState WARMER_EMPTY BOILER_NOT_EMPTY BREW_BUTTON_NOT_PUSHED)).indicatorCmd
      = INDICATOR_OFF :=
  (IndicatorLight_on_iff_pot_not_empty
      (testState WARMER_EMPTY BOILER_NOT_EMPTY BREW_BUTTON_NOT_PUSHED)).2 (by decide)

/-- C4: after every poll of the warmer-plate publisher, the relief
valve is open iff the just-read status equals `WARMER_EMPTY`, and
commanded closed for every other status — independent of the boiler's
state, which is universally quantified here. -/
theorem Valve_open_iff_warmer_empty (s : State) :
    ((check_status warmer_plate_sensor s).valveCmd = VALVE_OPEN
      ↔ s.env.warmer_plate = WARMER_EMPTY) ∧
    (s.env.warmer_plate ≠ WARMER_EMPTY →
      (check_status warmer_plate_sensor s).valveCmd = VALVE_CLOSED) := by
  rw [check_warmer_eq]
  by_cases h : s.env.warmer_plate = WARMER_EMPTY <;>
    simp [h, VALVE_OPEN, VALVE_CLOSED]

/-- C4 witness: at status `POT_EMPTY` (non-empty) the poll commands the
valve closed. -/
theorem Valve_open_iff_warmer_empty_witness :
    (check_status warmer_plate_sensor
        (testState POT_EMPTY BOILER_EMPTY BREW_BUTTON_NOT_PUSHED)).valveCmd
      = VALVE_CLOSED :=
  (Valve_open_iff_warmer_empty
      (testState POT_EMPTY BOILER_EMPTY BREW_BUTTON_NOT_PUSHED)).2 (by decide)

/-- C7: every `check_status` call reads the bound sensor exactly once
(the read appends exactly one read event to the trace) and then hands
that single just-read value to every bound observer in registration
order, skipping none (`notifyAll` is the one-by-one dispatch in list
order) — with no de-duplication against any previous value. -/
theorem check_status_single_read_notifies_all (p : StatusPublisher) (s : State) :
    ∃ v s1, p.sensor.get_status s = (v, s1) ∧
      s1.trace = s.trace ++ [p.sensor.readEvent v] ∧
      check_status p s = notifyAll p.observers v s1 := by
  refine ⟨(p.sensor.get_status s).1, (p.sensor.get_status s).2, rfl, ?_, ?_⟩
  · cases p.sensor <;>
      simp [Sensor.get_status, Sensor.readEvent, WarmerPlateSensor.get_status,
        BoilerSensor.get_status, ButtonSensor.get_status, warmer_plate_status,
        boiler_status, brew_button_status]
  · rw [check_status, foldl_on_observe_eq_notifyAll]

/-- C8: with boiler not-empty, warmer plate pot-present and brew button
pushed, one scheduler iteration (warmer-plate, boiler, button polls in
order) leaves the valve closed, the boiler commanded on and `is_on`
true. -/
theorem scenario_one_poll_cycle (s : State)
    (hb : s.env.boiler = BOILER_NOT_EMPTY)
    (hw : s.env.warmer_plate ≠ WARMER_EMPTY)
    (hbb : s.env.brew_button = BREW_BUTTON_PUSHED) :
    (run_iteration s).valveCmd = VALVE_CLOSED ∧
    (run_iteration s).boilerCmd = BOILER_ON ∧
    (run_iteration s).boiler_is_on = true := by
  have hb' : s.env.boiler ≠ BOILER_EMPTY := by
    rw [hb]; decide
  have step : run_iteration s =
      check_status button_sensor (check_status boiler_sensor
        (check_status warmer_plate_sensor s)) := rfl
  rw [step, check_warmer_eq, check_boiler_eq]
  rw [if_neg hb']
  rw [check_button_eq]
  rw [if_pos hbb]
  simp [Boiler_turn_on_success_state, hb', hw]

/-- C8 witness: the scenario at a concrete state (pot with coffee,
boiler not empty, button pushed). -/
theorem scenario_one_poll_cycle_witness :
    (run_iteration (testState POT_NOT_EMPTY BOILER_NOT_EMPTY BREW_BUTTON_PUSHED)).valveCmd
      = VALVE_CLOSED ∧
    (run_iteration (testState POT_NOT_EMPTY BOILER_NOT_EMPTY BREW_BUTTON_PUSHED)).boilerCmd
      = BOILER_ON ∧
    (run_iteration (testState POT_NOT_EMPTY BOILER_NOT_EMPTY BREW_BUTTON_PUSHED)).boiler_is_on
      = true :=
  scenario_one_poll_cycle (testState POT_NOT_EMPTY BOILER_NOT_EMPTY BREW_BUTTON_PUSHED)
    (by decide) (by decide) (by decide)

/-- C9: at warmer-plate status `POT_EMPTY` the two notions of pot
presence diverge: `pot_present` is true, so `Boiler.turn_on` succeeds
whenever the boiler is also not-empty, yet on that same status the
warmer-plate observer commands the warmer off and the indicator-light
observer commands the light off. -/
theorem pot_present_divergence_at_pot_empty (s : State)
    (hw : s.env.warmer_plate = POT_EMPTY)
    (hb : s.env.boiler = BOILER_NOT_EMPTY) :
    (WarmerPlateSensor.pot_present s).1 = true ∧
    (Boiler.turn_on s).boiler_is_on = true ∧
    (Boiler.turn_on s).boilerCmd = BOILER_ON ∧
    (WarmerPlate.on_observe_warmer_plate POT_EMPTY s).warmerCmd = WARMER_OFF ∧
    (IndicatorLight.on_warmer_plate_status POT_EMPTY s).indicatorCmd = INDICATOR_OFF := by
  simp [WarmerPlateSensor.pot_present, WarmerPlateSensor.get_status,
    warmer_plate_status, Boiler.turn_on, Boiler.can_turn_on,
    BoilerSensor.is_empty, BoilerSensor.get_status, boiler_status,
    Valve.close, set_relief_valve_state, set_boiler_state,
    WarmerPlate.on_observe_warmer_plate, WarmerPlate.turn_on,
    WarmerPlate.turn_off, set_warmer_state,
    IndicatorLight.on_warmer_plate_status, IndicatorLight.turn_on,
    IndicatorLight.turn_off, set_indicator_state, hw, hb,
    POT_EMPTY, POT_NOT_EMPTY, WARMER_EMPTY, BOILER_EMPTY, BOILER_NOT_EMPTY]

/-- C9 witness: the divergence at a concrete state. -/
theorem pot_present_divergence_at_pot_empty_witness :
    (WarmerPlateSensor.pot_present
        (testState POT_EMPTY BOILER_NOT_EMPTY BREW_BUTTON_NOT_PUSHED)).1 = true ∧
    (Boiler.turn_on
        (testState POT_EMPTY BOILER_NOT_EMPTY BREW_BUTTON_NOT_PUSHED)).boiler_is_on = true ∧
    (Boiler.turn_on
        (testState POT_EMPTY BOILER_NOT_EMPTY BREW_BUTTON_NOT_PUSHED)).boilerCmd = BOILER_ON ∧
    (WarmerPlate.on_observe_warmer_plate POT_EMPTY
        (testState POT_EMPTY BOILER_NOT_EMPTY BREW_BUTTON_NOT_PUSHED)).warmerCmd = WARMER_OFF ∧
    (IndicatorLight.on_warmer_plate_status POT_EMPTY
        (testState POT_EMPTY BOILER_NOT_EMPTY BREW_BUTTON_NOT_PUSHED)).indicatorCmd
      = INDICATOR_OFF :=
  pot_present_divergence_at_pot_empty
    (testState POT_EMPTY BOILER_NOT_EMPTY BREW_BUTTON_NOT_PUSHED) (by decide) (by decide)

end CoffeeMaker
